import Mathlib

/-!
Shallow embedding of the rule-checking core of `react-native-ama`:

* `packages/core/src/internals/getRuleErrorInfo.tsx` — the static rule
  catalog `RULES_HELP` and the `getRuleErrorInfo` reporter (development
  build, i.e. the `__DEV__` branch, which is the only branch in which the
  values are non-null);
* `playground/.storybook/accessibility-info-polyfill.js` — the browser
  polyfill for the native `AccessibilityInfo` state-query methods.

TypeScript objects indexed by string keys become association lists; the
TypeScript property read `RULES_HELP![issue.rule]`, which yields
`undefined` on an absent key (so that the following `.message` access
throws), becomes an `Option`-valued lookup where `none` marks the crash.
JavaScript string truthiness (`if (issue.reason)`) is modelled explicitly:
an absent field and the empty string are both falsy.
-/

namespace Ama

/-- Severity of a rule, kept as the raw string of the source data so that
membership in the TypeScript union `'Serious' | 'Critical'` is a provable
property rather than a typing artefact. -/
abbrev A11ySeverity := String

/-- One entry of the rule catalog: the value type of `RULES_HELP` in
`getRuleErrorInfo.tsx` (fields `url`, `issue`, `severity`, `message`,
`expectation`). -/
structure RuleHelpEntry where
  url : String
  issue : String
  severity : A11ySeverity
  message : String
  expectation : String
  deriving Repr, DecidableEq

/-- An accessibility issue handed to the reporter: a rule identifier plus
an optional free-text reason (`A11yIssue` from `./types`; its shape is
fixed by the spec's data model and by the field accesses in
`getRuleErrorInfo`). -/
structure A11yIssue where
  rule : String
  reason : Option String
  deriving Repr, DecidableEq

/-- The static rule catalog `RULES_HELP` (development build), transcribed
entry by entry from `getRuleErrorInfo.tsx` lines 24-143. -/
def RULES_HELP : List (String × RuleHelpEntry) :=
  [ ("CONTRAST_FAILED",
     { url := "/guidelines/contrast"
       issue := "Contrast failed"
       severity := "Serious"
       message := "Text contrast does not meet accessibility requirements."
       expectation := "Ensure text has sufficient contrast against its background." }),
    ("CONTRAST_FAILED_AAA",
     { url := "/guidelines/contrast"
       issue := "Contrast failed AAA"
       severity := "Serious"
       message := "Text contrast does not meet AAA accessibility requirements."
       expectation := "Ensure text has sufficient contrast for AAA compliance." }),
    ("MINIMUM_SIZE",
     { url := "/guidelines/minimum-size"
       issue := "Minimum size not met"
       severity := "Serious"
       message := "Interactive elements must meet minimum size requirements."
       expectation := "Ensure interactive elements are at least 44x44 points." }),
    ("UPPERCASE_TEXT_NO_ACCESSIBILITY_LABEL",
     { url := "/guidelines/text"
       issue := "Uppercase text without accessibility label"
       severity := "Serious"
       message := "Uppercase text may be read letter-by-letter by screen readers."
       expectation := "Provide an accessibility label with properly formatted text." }),
    ("NO_UPPERCASE_TEXT",
     { url := "/guidelines/text"
       issue := "Uppercase text detected"
       severity := "Serious"
       message := "Uppercase text may be difficult to read and understand."
       expectation := "Use sentence case instead of all uppercase text." }),
    ("NO_ACCESSIBILITY_LABEL",
     { url := "/guidelines/accessibility-label"
       issue := "Missing accessibility label"
       severity := "Critical"
       message := "Screen readers rely on accessibility labels to announce the purpose of elements. Without labels, visually impaired users can't understand the functionality."
       expectation := "Add a descriptive aria-label prop clearly explaining the element's action (e.g., \"Add to cart\", \"Go back\")." }),
    ("NO_ACCESSIBILITY_ROLE",
     { url := "/guidelines/accessibility-role"
       severity := "Critical"
       issue := "Missing accessibility role"
       message := "Accessibility roles help users understand how to interact with an element, indicating what action can be performed and what outcome to expect."
       expectation := "Specify an appropriate aria-role prop (e.g., \"button\", \"link\") for the component." }),
    ("NO_KEYBOARD_TRAP",
     { url := "/guidelines/forms"
       issue := "Keyboard trap detected"
       severity := "Critical"
       message := "Users must be able to navigate away from elements using keyboard."
       expectation := "Ensure all interactive elements can be navigated away from using keyboard." }),
    ("NO_FORM_LABEL",
     { url := "/guidelines/forms"
       issue := "Form missing label"
       severity := "Critical"
       message := "Form inputs must have associated labels for accessibility."
       expectation := "Add appropriate labels to all form inputs." }),
    ("NO_FORM_ERROR",
     { url := "/guidelines/forms"
       issue := "Form missing error handling"
       severity := "Serious"
       message := "Form errors must be properly communicated to users."
       expectation := "Implement proper error messaging and validation feedback." }),
    ("FLATLIST_NO_COUNT_IN_SINGULAR_MESSAGE",
     { url := "/guidelines/lists-grids#number-of-results"
       issue := "FlatList missing count in singular message"
       severity := "Serious"
       message := "List count information helps users understand the content scope."
       expectation := "Include item count in singular accessibility messages." }),
    ("FLATLIST_NO_COUNT_IN_PLURAL_MESSAGE",
     { url := "/guidelines/lists-grids#number-of-results"
       issue := "FlatList missing count in plural message"
       severity := "Serious"
       message := "List count information helps users understand the content scope."
       expectation := "Include item count in plural accessibility messages." }),
    ("BOTTOM_SHEET_CLOSE_ACTION",
     { url := "/guidelines/bottomsheet"
       issue := "Bottom sheet missing close action"
       severity := "Critical"
       message := "Bottom sheets must provide accessible ways to close them."
       expectation := "Add accessible close button or gesture handling." }),
    ("INCOMPATIBLE_ACCESSIBILITY_STATE",
     { url := "/guidelines/accessibility-role"
       issue := "Incompatible accessibility state"
       severity := "Serious"
       message := "Accessibility state conflicts with the element role."
       expectation := "Ensure accessibility state is compatible with the element role." }),
    ("INCOMPATIBLE_ACCESSIBILITY_ROLE",
     { url := "/guidelines/accessibility-role"
       issue := "Incompatible accessibility role"
       severity := "Serious"
       message := "The accessibility role does not match the element purpose."
       expectation := "Use an appropriate accessibility role for the element." }),
    ("NO_FORM_LABEL_ENDING_WITH_ASTERISK",
     { url := "/guidelines/forms#labels"
       issue := "Form label ending with asterisk"
       severity := "Serious"
       message := "Asterisks in labels may not be announced by screen readers."
       expectation := "Use explicit required field indicators instead of asterisks." }) ]

/-- The TypeScript property read `RULES_HELP![rule]`: `some` the entry when
the key is present, `none` (JavaScript `undefined`) when it is absent. -/
def rulesHelpGet (rule : String) : Option RuleHelpEntry :=
  RULES_HELP.lookup rule

/-- JavaScript truthiness of the optional string `issue.reason` as tested
by `if (issue.reason)`: an absent field and the empty string are falsy,
every other string is truthy. -/
def reasonTruthy : Option String → Bool
  | none => false
  | some s => s ≠ ""

/-- The record `{message, url, severity}` returned by `getRuleErrorInfo`. -/
structure RuleErrorInfo where
  message : String
  url : String
  severity : A11ySeverity
  deriving Repr, DecidableEq

/-- `getRuleErrorInfo` (development build), `getRuleErrorInfo.tsx` lines
180-194.  The source reads `RULES_HELP![issue.rule]` and immediately
dereferences `.message` on the result; on an absent key that dereference
throws, modelled here as `none`. -/
def getRuleErrorInfo (issue : A11yIssue) : Option RuleErrorInfo :=
  match rulesHelpGet issue.rule with
  | none => none
  | some ruleHelp =>
    let message :=
      if reasonTruthy issue.reason then
        ruleHelp.message ++ ": " ++ issue.reason.getD ""
      else
        ruleHelp.message
    let url := "https://nearform.com/open-source/react-native-ama/" ++ ruleHelp.url
    some { message := message, url := url, severity := ruleHelp.severity }

/-! ### The browser `AccessibilityInfo` polyfill

`playground/.storybook/accessibility-info-polyfill.js` adds the
accessibility state-query methods missing from react-native-web.  Each
method returns a promise; the embedding records the boolean the promise
resolves to, as a function of the browser environment the script can
observe. -/

/-- The part of the browser environment the polyfill's state-query methods
observe: whether `window` and `window.matchMedia` exist, what the two
contrast-related media queries report, and whether evaluating each of them
throws. -/
structure WebEnv where
  hasWindow : Bool
  hasMatchMedia : Bool
  prefersContrastHigh : Bool
  forcedColorsActive : Bool
  contrastQueryThrows : Bool
  forcedColorsQueryThrows : Bool
  deriving Repr, DecidableEq

/-- The fifteen constant `() => Promise.resolve(false)` stubs of
`ExtendedAccessibilityInfo` share this definition: they ignore the
environment and resolve to `false`
(`accessibility-info-polyfill.js` lines 169-219, except
`isHighContrastEnabled`). -/
def resolveFalseStub (_ : WebEnv) : Bool := false

def isReduceTransparencyEnabled : WebEnv → Bool := resolveFalseStub
def isBoldTextEnabled : WebEnv → Bool := resolveFalseStub
def isGrayscaleEnabled : WebEnv → Bool := resolveFalseStub
def isInvertColorsEnabled : WebEnv → Bool := resolveFalseStub
def isReduceMotionAndAnimationsEnabled : WebEnv → Bool := resolveFalseStub
def isDarkerSystemColorsEnabled : WebEnv → Bool := resolveFalseStub
def isOnOffSwitchLabelsEnabled : WebEnv → Bool := resolveFalseStub
def isClosedCaptionEnabled : WebEnv → Bool := resolveFalseStub
def isMonoAudioEnabled : WebEnv → Bool := resolveFalseStub
def isShakeToUndoEnabled : WebEnv → Bool := resolveFalseStub
def isAssistiveTouchRunning : WebEnv → Bool := resolveFalseStub
def isSwitchControlRunning : WebEnv → Bool := resolveFalseStub
def isVoiceOverRunning : WebEnv → Bool := resolveFalseStub
def isTalkBackRunning : WebEnv → Bool := resolveFalseStub
def isAccessibilityServiceEnabled : WebEnv → Bool := resolveFalseStub

/-- `isHighContrastEnabled` (`accessibility-info-polyfill.js` lines
179-199): when `window.matchMedia` is available it resolves to the result
of the media query `prefers-contrast: high`; if that query throws it falls
back to `forced-colors: active`; if that throws too, or there is no
`window`/`matchMedia`, it resolves to `false`. -/
def isHighContrastEnabled (env : WebEnv) : Bool :=
  if env.hasWindow && env.hasMatchMedia then
    if env.contrastQueryThrows then
      if env.forcedColorsQueryThrows then false
      else env.forcedColorsActive
    else env.prefersContrastHigh
  else false

/-! ### Checker predicates (not in the extracted sources)

The per-component checker predicates of `@react-native-ama/internal` are
not among the extracted files; only the catalog and the reporter are.
The pressable checks are therefore modelled from the spec. -/

/-- Render-time props of a pressable element, as the spec describes the
checker's input: accessible label, accessible role, and dimensions in
logical points. -/
structure PressableProps where
  accessibilityLabel : Option String
  accessibilityRole : Option String
  width : Nat
  height : Nat
  deriving Repr, DecidableEq

/-- Modelled from the spec: the checker predicates for pressable elements
(the `@react-native-ama/internal` checks are not among the extracted
sources).  Per the spec's testable properties, a pressable with no
accessible label yields `NO_ACCESSIBILITY_LABEL`, one with no accessible
role yields `NO_ACCESSIBILITY_ROLE`, and one smaller than 44x44 logical
points yields `MINIMUM_SIZE`. -/
def checkPressable (props : PressableProps) : List A11yIssue :=
  (if props.accessibilityLabel.isNone then
    [{ rule := "NO_ACCESSIBILITY_LABEL", reason := none }] else []) ++
  (if props.accessibilityRole.isNone then
    [{ rule := "NO_ACCESSIBILITY_ROLE", reason := none }] else []) ++
  (if props.width < 44 || props.height < 44 then
    [{ rule := "MINIMUM_SIZE", reason := none }] else [])

/-- Modelled from the spec: the set of rule identifiers referenced by the
checker predicates, as far as the spec names them (the three identifiers
of its testable-properties examples; the predicates themselves are not
among the extracted sources). -/
def checkerReferencedRules : List String :=
  ["NO_ACCESSIBILITY_LABEL", "NO_ACCESSIBILITY_ROLE", "MINIMUM_SIZE"]

/-! ### Theorems -/

/-- C1: the catalog lookup in `getRuleErrorInfo` is a direct key/value
read with no fallback: whenever the issue's rule is a key of `RULES_HELP`
the function returns a result (no error), and whenever it is absent the
lookup fails (the error branch is reachable and is exactly the absent-key
dereference). -/
theorem getRuleErrorInfo_lookup_dichotomy :
    (∀ issue : A11yIssue,
      (rulesHelpGet issue.rule).isSome → (getRuleErrorInfo issue).isSome) ∧
    (∀ issue : A11yIssue,
      rulesHelpGet issue.rule = none → getRuleErrorInfo issue = none) := by
  constructor
  · intro issue h
    unfold getRuleErrorInfo
    cases hl : rulesHelpGet issue.rule with
    | none => rw [hl] at h; simp at h
    | some e => simp
  · intro issue h
    unfold getRuleErrorInfo
    rw [h]

/-- C1 witness: a catalog key succeeds, an unknown rule identifier hits
the error branch. -/
theorem getRuleErrorInfo_lookup_dichotomy_witness :
    (getRuleErrorInfo { rule := "MINIMUM_SIZE", reason := none }).isSome ∧
    getRuleErrorInfo { rule := "SOME_UNKNOWN_RULE", reason := none } = none :=
  ⟨getRuleErrorInfo_lookup_dichotomy.1 { rule := "MINIMUM_SIZE", reason := none }
      (by decide),
   getRuleErrorInfo_lookup_dichotomy.2 { rule := "SOME_UNKNOWN_RULE", reason := none }
      (by decide)⟩

/-- C2: on a catalog hit, `getRuleErrorInfo` returns exactly a
`{message, url, severity}` record whose `url` is the fixed site prefix
concatenated with the entry's `url` field and whose `severity` is the
entry's `severity` field. -/
theorem getRuleErrorInfo_shape :
    ∀ (issue : A11yIssue) (e : RuleHelpEntry),
      rulesHelpGet issue.rule = some e →
      ∃ m : String,
        getRuleErrorInfo issue = some
          { message := m
            url := "https://nearform.com/open-source/react-native-ama/" ++ e.url
            severity := e.severity } := by
  intro issue e h
  unfold getRuleErrorInfo
  rw [h]
  exact ⟨_, rfl⟩

/-- C2 witness at the `CONTRAST_FAILED` entry. -/
theorem getRuleErrorInfo_shape_witness :
    ∃ m : String,
      getRuleErrorInfo { rule := "CONTRAST_FAILED", reason := none } = some
        { message := m
          url := "https://nearform.com/open-source/react-native-ama/" ++ "/guidelines/contrast"
          severity := "Serious" } :=
  getRuleErrorInfo_shape { rule := "CONTRAST_FAILED", reason := none }
    { url := "/guidelines/contrast"
      issue := "Contrast failed"
      severity := "Serious"
      message := "Text contrast does not meet accessibility requirements."
      expectation := "Ensure text has sufficient contrast against its background." }
    (by decide)

/-- C3: the free-text reason is optional; a (truthy) reason is appended to
the catalog message after a `": "` separator, and without a reason the
catalog message is returned unchanged. -/
theorem getRuleErrorInfo_reason_append :
    ∀ (issue : A11yIssue) (e : RuleHelpEntry),
      rulesHelpGet issue.rule = some e →
      (∀ r : String, issue.reason = some r → r ≠ "" →
        (getRuleErrorInfo issue).map RuleErrorInfo.message =
          some (e.message ++ ": " ++ r)) ∧
      (issue.reason = none →
        (getRuleErrorInfo issue).map RuleErrorInfo.message = some e.message) := by
  intro issue e h
  constructor
  · intro r hr hne
    simp [getRuleErrorInfo, h, reasonTruthy, hr, hne]
  · intro hr
    simp [getRuleErrorInfo, h, reasonTruthy, hr]

/-- C3 witness: with and without a reason on the `MINIMUM_SIZE` rule. -/
theorem getRuleErrorInfo_reason_append_witness :
    (getRuleErrorInfo { rule := "MINIMUM_SIZE", reason := some "button too small" }).map
        RuleErrorInfo.message =
      some ("Interactive elements must meet minimum size requirements." ++ ": " ++
        "button too small") ∧
    (getRuleErrorInfo { rule := "MINIMUM_SIZE", reason := none }).map
        RuleErrorInfo.message =
      some "Interactive elements must meet minimum size requirements." := by
  have h1 := getRuleErrorInfo_reason_append
    { rule := "MINIMUM_SIZE", reason := some "button too small" }
    { url := "/guidelines/minimum-size"
      issue := "Minimum size not met"
      severity := "Serious"
      message := "Interactive elements must meet minimum size requirements."
      expectation := "Ensure interactive elements are at least 44x44 points." }
    (by decide)
  have h2 := getRuleErrorInfo_reason_append
    { rule := "MINIMUM_SIZE", reason := none }
    { url := "/guidelines/minimum-size"
      issue := "Minimum size not met"
      severity := "Serious"
      message := "Interactive elements must meet minimum size requirements."
      expectation := "Ensure interactive elements are at least 44x44 points." }
    (by decide)
  exact ⟨h1.1 "button too small" rfl (by decide), h2.2 rfl⟩

/-- C4: the catalog is a genuine static mapping (its keys are pairwise
distinct, and being a Lean constant it is never mutated), and every
entry's severity is either `"Serious"` or `"Critical"`; each entry carries
exactly the fields `url`, `issue`, `severity`, `message`, `expectation` by
the `RuleHelpEntry` record type. -/
theorem RULES_HELP_static_severities :
    (RULES_HELP.map Prod.fst).Nodup ∧
    ∀ p ∈ RULES_HELP, p.2.severity = "Serious" ∨ p.2.severity = "Critical" := by
  constructor
  · decide
  · decide

/-- C4 witness: the `NO_KEYBOARD_TRAP` entry is in the catalog and its
severity is one of the two allowed tiers. -/
theorem RULES_HELP_static_severities_witness :
    ("NO_KEYBOARD_TRAP",
      ({ url := "/guidelines/forms"
         issue := "Keyboard trap detected"
         severity := "Critical"
         message := "Users must be able to navigate away from elements using keyboard."
         expectation := "Ensure all interactive elements can be navigated away from using keyboard." } :
        RuleHelpEntry)).2.severity = "Serious" ∨
    ("NO_KEYBOARD_TRAP",
      ({ url := "/guidelines/forms"
         issue := "Keyboard trap detected"
         severity := "Critical"
         message := "Users must be able to navigate away from elements using keyboard."
         expectation := "Ensure all interactive elements can be navigated away from using keyboard." } :
        RuleHelpEntry)).2.severity = "Critical" :=
  RULES_HELP_static_severities.2 _ (by decide)

/-- C5: completeness invariant — every rule identifier referenced by a
checker predicate has a matching entry in `RULES_HELP`. -/
theorem checker_rules_complete :
    ∀ r ∈ checkerReferencedRules, (rulesHelpGet r).isSome := by
  decide

/-- C5 witness at `NO_ACCESSIBILITY_ROLE`. -/
theorem checker_rules_complete_witness :
    (rulesHelpGet "NO_ACCESSIBILITY_ROLE").isSome :=
  checker_rules_complete "NO_ACCESSIBILITY_ROLE" (by decide)

/-- C6: a pressable with no accessible label and no accessible role (and
adequate size) yields exactly the two issues `NO_ACCESSIBILITY_LABEL` and
`NO_ACCESSIBILITY_ROLE`, and `getRuleErrorInfo` reports severity
`"Critical"` for both rules. -/
theorem pressable_unlabeled_unroled_two_critical_issues :
    ∀ w h : Nat, 44 ≤ w → 44 ≤ h →
      checkPressable
          { accessibilityLabel := none, accessibilityRole := none
            width := w, height := h } =
        [{ rule := "NO_ACCESSIBILITY_LABEL", reason := none },
         { rule := "NO_ACCESSIBILITY_ROLE", reason := none }] ∧
      (getRuleErrorInfo { rule := "NO_ACCESSIBILITY_LABEL", reason := none }).map
          RuleErrorInfo.severity = some "Critical" ∧
      (getRuleErrorInfo { rule := "NO_ACCESSIBILITY_ROLE", reason := none }).map
          RuleErrorInfo.severity = some "Critical" := by
  intro w h hw hh
  refine ⟨?_, by decide, by decide⟩
  simp [checkPressable, Nat.not_lt.mpr hw, Nat.not_lt.mpr hh]

/-- C6 witness at size 44x44. -/
theorem pressable_unlabeled_unroled_two_critical_issues_witness :
    checkPressable
        { accessibilityLabel := none, accessibilityRole := none
          width := 44, height := 44 } =
      [{ rule := "NO_ACCESSIBILITY_LABEL", reason := none },
       { rule := "NO_ACCESSIBILITY_ROLE", reason := none }] ∧
    (getRuleErrorInfo { rule := "NO_ACCESSIBILITY_LABEL", reason := none }).map
        RuleErrorInfo.severity = some "Critical" ∧
    (getRuleErrorInfo { rule := "NO_ACCESSIBILITY_ROLE", reason := none }).map
        RuleErrorInfo.severity = some "Critical" :=
  pressable_unlabeled_unroled_two_critical_issues 44 44 (by decide) (by decide)

/-- C7: a labelled, roled pressable sized 30x30 yields exactly
`MINIMUM_SIZE`, sized 44x44 yields no issues; the `MINIMUM_SIZE` catalog
entry has severity `"Serious"` and its expectation states the 44x44
minimum. -/
theorem pressable_minimum_size_rule :
    ∀ label role : String,
      checkPressable
          { accessibilityLabel := some label, accessibilityRole := some role
            width := 30, height := 30 } =
        [{ rule := "MINIMUM_SIZE", reason := none }] ∧
      checkPressable
          { accessibilityLabel := some label, accessibilityRole := some role
            width := 44, height := 44 } = [] ∧
      (getRuleErrorInfo { rule := "MINIMUM_SIZE", reason := none }).map
          RuleErrorInfo.severity = some "Serious" ∧
      (rulesHelpGet "MINIMUM_SIZE").map RuleHelpEntry.expectation =
        some "Ensure interactive elements are at least 44x44 points." := by
  intro label role
  exact ⟨rfl, rfl, by decide, by decide⟩

/-- C8: the reporter is deterministic, idempotent and stateless: two runs
on the same issue yield the same result, and a prior run on any other
issue does not change the result (the embedding is a pure function because
the source only reads the module-level constant `RULES_HELP` and assigns
nothing outside its own scope). -/
theorem getRuleErrorInfo_deterministic :
    ∀ i₁ i₂ : A11yIssue,
      getRuleErrorInfo i₂ = getRuleErrorInfo i₂ ∧
      (fun _previousRun => getRuleErrorInfo i₂) (getRuleErrorInfo i₁) =
        getRuleErrorInfo i₂ := by
  intro i₁ i₂
  exact ⟨rfl, rfl⟩

/-- C9 counterexample: `isHighContrastEnabled` is not a
`Promise.resolve(false)` stub — in a browser environment where the media
query `prefers-contrast: high` matches, it resolves to `true`. -/
theorem isHighContrastEnabled_not_always_false :
    isHighContrastEnabled
        { hasWindow := true, hasMatchMedia := true
          prefersContrastHigh := true, forcedColorsActive := false
          contrastQueryThrows := false, forcedColorsQueryThrows := false } =
      true := by
  decide

/-- C9 (amended): the fifteen listed methods other than
`isHighContrastEnabled` are `Promise.resolve(false)` stubs that always
resolve to `false`; `isHighContrastEnabled` instead detects high contrast
via media queries, resolving to `false` whenever `window` or `matchMedia`
is unavailable, and to the `prefers-contrast: high` query result when the
query is available and does not throw. -/
theorem polyfill_state_query_stubs :
    ∀ env : WebEnv,
      isReduceTransparencyEnabled env = false ∧
      isBoldTextEnabled env = false ∧
      isGrayscaleEnabled env = false ∧
      isInvertColorsEnabled env = false ∧
      isReduceMotionAndAnimationsEnabled env = false ∧
      isDarkerSystemColorsEnabled env = false ∧
      isOnOffSwitchLabelsEnabled env = false ∧
      isClosedCaptionEnabled env = false ∧
      isMonoAudioEnabled env = false ∧
      isShakeToUndoEnabled env = false ∧
      isAssistiveTouchRunning env = false ∧
      isSwitchControlRunning env = false ∧
      isVoiceOverRunning env = false ∧
      isTalkBackRunning env = false ∧
      isAccessibilityServiceEnabled env = false ∧
      ((env.hasWindow = false ∨ env.hasMatchMedia = false) →
        isHighContrastEnabled env = false) ∧
      (env.hasWindow = true → env.hasMatchMedia = true →
        env.contrastQueryThrows = false →
        isHighContrastEnabled env = env.prefersContrastHigh) := by
  intro env
  refine ⟨rfl, rfl, rfl, rfl, rfl, rfl, rfl, rfl, rfl, rfl, rfl, rfl, rfl, rfl, rfl,
    ?_, ?_⟩
  · intro h
    unfold isHighContrastEnabled
    rcases h with h | h <;> simp [h]
  · intro hw hm hq
    unfold isHighContrastEnabled
    simp [hw, hm, hq]

/-- C9 witness: the stubs and the no-`matchMedia` fallback at a concrete
environment. -/
theorem polyfill_state_query_stubs_witness :
    isVoiceOverRunning
        { hasWindow := true, hasMatchMedia := false
          prefersContrastHigh := true, forcedColorsActive := false
          contrastQueryThrows := false, forcedColorsQueryThrows := false } =
      false ∧
    isHighContrastEnabled
        { hasWindow := true, hasMatchMedia := false
          prefersContrastHigh := true, forcedColorsActive := false
          contrastQueryThrows := false, forcedColorsQueryThrows := false } =
      false :=
  ⟨(polyfill_state_query_stubs _).2.2.2.2.2.2.2.2.2.2.2.2.1,
   (polyfill_state_query_stubs
      { hasWindow := true, hasMatchMedia := false
        prefersContrastHigh := true, forcedColorsActive := false
        contrastQueryThrows := false,
        forcedColorsQueryThrows := false }).2.2.2.2.2.2.2.2.2.2.2.2.2.2.2.1
     (Or.inr rfl)⟩

/-- C10: an empty-string reason is treated as absent — `getRuleErrorInfo`
returns the same result as for an issue with no reason at all, with the
catalog message unchanged and no `": "` separator appended. -/
theorem getRuleErrorInfo_empty_reason :
    ∀ (rule : String) (e : RuleHelpEntry),
      rulesHelpGet rule = some e →
      getRuleErrorInfo { rule := rule, reason := some "" } =
        getRuleErrorInfo { rule := rule, reason := none } ∧
      (getRuleErrorInfo { rule := rule, reason := some "" }).map
          RuleErrorInfo.message = some e.message := by
  intro rule e h
  constructor
  · simp [getRuleErrorInfo, h, reasonTruthy]
  · simp [getRuleErrorInfo, h, reasonTruthy]

/-- C10 witness at `NO_FORM_ERROR`. -/
theorem getRuleErrorInfo_empty_reason_witness :
    getRuleErrorInfo { rule := "NO_FORM_ERROR", reason := some "" } =
      getRuleErrorInfo { rule := "NO_FORM_ERROR", reason := none } ∧
    (getRuleErrorInfo { rule := "NO_FORM_ERROR", reason := some "" }).map
        RuleErrorInfo.message =
      some "Form errors must be properly communicated to users." :=
  getRuleErrorInfo_empty_reason "NO_FORM_ERROR"
    { url := "/guidelines/forms"
      issue := "Form missing error handling"
      severity := "Serious"
      message := "Form errors must be properly communicated to users."
      expectation := "Implement proper error messaging and validation feedback." }
    (by decide)

end Ama
